import Mathlib

/-!
Verification of the customer-churn prediction core: a shallow embedding of
the risk classification (ml/model_loader.py), the feature computation
(features/feature_store.py), the retention-action engine
(action_engine/action_recommender.py), the ingestion router
(ingestion/stream_processor.py) and the batch prediction path (api/main.py),
together with theorems about the embedded definitions.

Modelling conventions: Python floats are modelled as rationals (every
comparison and arithmetic operation in the embedded code is exact, so the
control flow is preserved); datetimes are modelled as integer seconds and
dates as integer day numbers; nullable columns and optional dict fields are
modelled as `Option`; SQL result sets are modelled as Lean lists filtered
from an explicit snapshot of the store.
-/

namespace ChurnSpec

/-- Configured risk thresholds, `CONFIG['retention_actions']['risk_thresholds']`. -/
structure RiskThresholds where
  critical : ℚ
  high : ℚ
  medium : ℚ

/-- Risk-level classification from `ModelLoader.predict` (ml/model_loader.py):
an if/elif chain over the configured thresholds, producing the level string. -/
def classifyRisk (t : RiskThresholds) (proba : ℚ) : String :=
  if t.critical ≤ proba then "critical"
  else if t.high ≤ proba then "high"
  else if t.medium ≤ proba then "medium"
  else "low"

/-- Rank of a risk level in the order low < medium < high < critical. -/
def levelRank (s : String) : ℕ :=
  if s == "critical" then 3
  else if s == "high" then 2
  else if s == "medium" then 1
  else 0

/-- Claim C1: with thresholds ordered `t.medium < t.high < t.critical`, the
classification returns "critical" iff `p ≥ t.critical`, "high" iff
`t.high ≤ p < t.critical`, "medium" iff `t.medium ≤ p < t.high`, and
"low" iff `p < t.medium`; every boundary is inclusive on the upper side. -/
theorem classifyRisk_spec (t : RiskThresholds) (p : ℚ)
    (hmh : t.medium < t.high) (hhc : t.high < t.critical) :
    (classifyRisk t p = "critical" ↔ t.critical ≤ p) ∧
    (classifyRisk t p = "high" ↔ t.high ≤ p ∧ p < t.critical) ∧
    (classifyRisk t p = "medium" ↔ t.medium ≤ p ∧ p < t.high) ∧
    (classifyRisk t p = "low" ↔ p < t.medium) := by
  unfold classifyRisk
  split_ifs with h1 h2 h3 <;>
    refine ⟨?_, ?_, ?_, ?_⟩ <;> simp_all <;> first | linarith | (intro h; linarith)

/-- Witness for `classifyRisk_spec` at thresholds (0.8, 0.6, 0.3), p = 0.8. -/
theorem classifyRisk_spec_witness :
    ((3 : ℚ)/10 < 6/10 ∧ (6 : ℚ)/10 < 8/10) ∧
    (classifyRisk ⟨8/10, 6/10, 3/10⟩ (8/10) = "critical" ↔ (8 : ℚ)/10 ≤ 8/10) := by
  refine ⟨⟨by norm_num, by norm_num⟩, ?_⟩
  exact (classifyRisk_spec ⟨8/10, 6/10, 3/10⟩ (8/10) (by norm_num) (by norm_num)).1

/-- Claim C2: for fixed thresholds, the risk level is monotone non-decreasing in
the churn probability under the order low < medium < high < critical. -/
theorem classifyRisk_monotone (t : RiskThresholds) (p₁ p₂ : ℚ) (hp : p₁ ≤ p₂) :
    levelRank (classifyRisk t p₁) ≤ levelRank (classifyRisk t p₂) := by
  unfold classifyRisk
  split_ifs <;> first | decide | linarith

/-- Witness for `classifyRisk_monotone` at p₁ = 0.2 ≤ p₂ = 0.9. -/
theorem classifyRisk_monotone_witness :
    ((2 : ℚ)/10 ≤ 9/10) ∧
    levelRank (classifyRisk ⟨8/10, 6/10, 3/10⟩ (2/10)) ≤
      levelRank (classifyRisk ⟨8/10, 6/10, 3/10⟩ (9/10)) :=
  ⟨by norm_num, classifyRisk_monotone ⟨8/10, 6/10, 3/10⟩ (2/10) (9/10) (by norm_num)⟩

/-! ## Data model (database/models.py)

Nullable columns are `Option`; datetimes are integer seconds; dates are
integer day numbers; floats are rationals. -/

/-- Row of `customers` (database/models.py, class Customer); only the columns
read by the embedded code are carried. -/
structure Customer where
  customer_id : String
  customer_segment : String
  age_range : Option String
  household_size : Option ℤ
  estimated_income : Option String
  account_created_date : Option ℤ
  monthly_recurring_revenue : Option ℚ
  lifetime_value : Option ℚ
  auto_renew : Option Bool
  contract_end_date : Option ℤ
  deriving DecidableEq

/-- Row of `customer_service_interactions`. -/
structure ServiceInteraction where
  customer_id : String
  timestamp : ℤ
  channel : Option String
  duration_seconds : Option ℤ
  resolution_status : Option String
  sentiment_score : Option ℚ
  deriving DecidableEq

/-- Row of `stb_telemetry`. -/
structure STBTelemetry where
  device_id : String
  customer_id : String
  timestamp : ℤ
  event_type : Option String
  viewing_duration_seconds : Option ℤ
  error_code : Option String
  buffer_events : ℤ
  network_quality : Option ℚ
  deriving DecidableEq

/-- Row of `web_analytics_events`. -/
structure WebAnalyticsEvent where
  customer_id : Option String
  session_id : String
  timestamp : ℤ
  event_name : Option String
  engagement_time_msec : Option ℤ
  deriving DecidableEq

/-- Row of `billing_events`. -/
structure BillingEvent where
  event_type : String
  customer_id : String
  timestamp : ℤ
  transaction_id : String
  amount : Option ℚ
  account_balance : Option ℚ
  days_overdue : Option ℤ
  deriving DecidableEq

/-- A snapshot of the relational store: the rows visible to the queries made
by the feature store, the action recommender and the ingestion router. -/
structure Snapshot where
  customers : List Customer
  serviceInteractions : List ServiceInteraction
  stbEvents : List STBTelemetry
  webEvents : List WebAnalyticsEvent
  billingEvents : List BillingEvent
  deriving DecidableEq

/-! ## Action recommendation engine (action_engine/action_recommender.py) -/

/-- Value of an `offer_details` JSON entry. -/
inductive JsonVal
  | s (v : String)
  | n (v : ℚ)
  | b (v : Bool)
  deriving DecidableEq

/-- A recommended action dict as built by `ActionRecommender._get_*_actions`.
The `description` of discount actions renders the percentage with Python's
`:.0f`; we render it with `round` (Python rounds exact halves to even, which
differs only on exact .5 ties; no property below depends on descriptions). -/
structure ActionRec where
  action_type : String
  priority : String
  description : String
  predicted_impact : ℚ
  estimated_cost : ℚ
  offer_details : List (String × JsonVal)
  deriving DecidableEq

/-- `ActionRecommender._get_critical_actions`. -/
def getCriticalActions (customer : Customer) (churn_prob : ℚ) : List ActionRec :=
  let base : List ActionRec :=
    [{ action_type := "service_call", priority := "high",
       description := "Immediate proactive service call to address concerns",
       predicted_impact := 0.25, estimated_cost := 50,
       offer_details := [("reason", .s "Critical churn risk detected"),
                         ("escalation", .b true)] }]
  let withDiscount : List ActionRec :=
    base ++
      match customer.monthly_recurring_revenue with
      | some mrr =>
        if mrr ≠ 0 then
          let discount_pct := min 25 (churn_prob * 30)
          [{ action_type := "discount", priority := "high",
             description := toString (round discount_pct) ++ "% discount for 6 months",
             predicted_impact := 0.30,
             estimated_cost := mrr * discount_pct / 100 * 6,
             offer_details := [("discount_percent", .n discount_pct),
                               ("duration_months", .n 6),
                               ("auto_apply", .b true)] }]
        else []
      | none => []
  withDiscount ++
    match customer.lifetime_value with
    | some ltv =>
      if ltv > 1000 then
        [{ action_type := "loyalty_reward", priority := "medium",
           description := "Exclusive loyalty reward for long-term customers",
           predicted_impact := 0.15, estimated_cost := 100,
           offer_details := [("reward_type", .s "gift_card"),
                             ("amount", .n 100)] }]
      else []
    | none => []

/-- `ActionRecommender._get_high_risk_actions`. -/
def getHighRiskActions (customer : Customer) (churn_prob : ℚ) : List ActionRec :=
  let base : List ActionRec :=
    [{ action_type := "service_call", priority := "medium",
       description := "Proactive service check-in",
       predicted_impact := 0.20, estimated_cost := 30,
       offer_details := [("reason", .s "High churn risk"),
                         ("escalation", .b false)] }]
  let withDiscount : List ActionRec :=
    base ++
      match customer.monthly_recurring_revenue with
      | some mrr =>
        if mrr ≠ 0 then
          let discount_pct := min 15 (churn_prob * 20)
          [{ action_type := "discount", priority := "high",
             description := toString (round discount_pct) ++ "% discount for 3 months",
             predicted_impact := 0.25,
             estimated_cost := mrr * discount_pct / 100 * 3,
             offer_details := [("discount_percent", .n discount_pct),
                               ("duration_months", .n 3)] }]
        else []
      | none => []
  withDiscount ++
    (if customer.customer_segment == "residential" ∨
        customer.customer_segment == "small_business" then
      [{ action_type := "upgrade", priority := "medium",
         description := "Upgrade to premium plan with special pricing",
         predicted_impact := 0.18, estimated_cost := 0,
         offer_details := [("upgrade_type", .s "premium"),
                           ("special_pricing", .b true)] }]
    else [])

/-- `ActionRecommender._get_medium_risk_actions`. -/
def getMediumRiskActions (customer : Customer) (churn_prob : ℚ) : List ActionRec :=
  (match customer.monthly_recurring_revenue with
   | some mrr =>
     if mrr ≠ 0 then
       let discount_pct := min 10 (churn_prob * 15)
       [{ action_type := "discount", priority := "medium",
          description := toString (round discount_pct) ++ "% discount for 2 months",
          predicted_impact := 0.15,
          estimated_cost := mrr * discount_pct / 100 * 2,
          offer_details := [("discount_percent", .n discount_pct),
                            ("duration_months", .n 2)] }]
     else []
   | none => []) ++
  [{ action_type := "custom_offer", priority := "low",
     description := "Personalized retention email with special offer",
     predicted_impact := 0.10, estimated_cost := 5,
     offer_details := [("channel", .s "email"),
                       ("personalized", .b true)] }]

/-- `ActionRecommender._get_low_risk_actions`. -/
def getLowRiskActions (_customer : Customer) : List ActionRec :=
  [{ action_type := "custom_offer", priority := "low",
     description := "Engagement email with tips and benefits",
     predicted_impact := 0.05, estimated_cost := 2,
     offer_details := [("channel", .s "email"),
                       ("type", .s "engagement")] }]

/-- The risk-level dispatch inside `ActionRecommender.recommend_actions`. -/
def candidateActions (customer : Customer) (churn_probability : ℚ)
    (risk_level : String) : List ActionRec :=
  if risk_level == "critical" then getCriticalActions customer churn_probability
  else if risk_level == "high" then getHighRiskActions customer churn_probability
  else if risk_level == "medium" then getMediumRiskActions customer churn_probability
  else getLowRiskActions customer

/-- The comparison used by `actions.sort(key=..., reverse=True)`: an action
sorts before another when its predicted impact is at least as large. -/
def impactGe (a b : ActionRec) : Prop :=
  b.predicted_impact ≤ a.predicted_impact

instance : DecidableRel impactGe :=
  fun a b => inferInstanceAs (Decidable (b.predicted_impact ≤ a.predicted_impact))

instance : IsTotal ActionRec impactGe :=
  ⟨fun a b => le_total b.predicted_impact a.predicted_impact⟩

instance : IsTrans ActionRec impactGe :=
  ⟨fun _ _ _ hab hbc => le_trans hbc hab⟩

/-- `ActionRecommender.recommend_actions`: look the customer up, derive the
candidate set for the risk level, sort by predicted impact descending
(Python's stable sort is modelled by stable insertion sort) and keep the
top three. -/
def recommendActions (s : Snapshot) (customer_id : String)
    (churn_probability : ℚ) (risk_level : String) : List ActionRec :=
  match s.customers.find? (fun c => c.customer_id == customer_id) with
  | none => []
  | some customer =>
    (List.insertionSort impactGe
      (candidateActions customer churn_probability risk_level)).take 3

/-- Combine two pairwise facts on a list into a pairwise fact about their
conjunction. -/
theorem pairwiseConj {α : Type} {R S : α → α → Prop} :
    ∀ {l : List α}, l.Pairwise R → l.Pairwise S →
      l.Pairwise fun a b => R a b ∧ S a b
  | [], _, _ => List.Pairwise.nil
  | _ :: _, .cons hR hRs, .cons hS hSs =>
    List.Pairwise.cons (fun x hx => ⟨hR x hx, hS x hx⟩) (pairwiseConj hRs hSs)

/-- In every risk branch the candidate actions carry pairwise distinct
predicted impacts (the constants 0.25/0.30/0.15, 0.20/0.25/0.18, 0.15/0.10,
0.05 of the source). -/
theorem candidateActions_impact_ne (c : Customer) (p : ℚ) (lvl : String) :
    List.Pairwise
      (fun a b : ActionRec => a.predicted_impact ≠ b.predicted_impact)
      (candidateActions c p lvl) := by
  unfold candidateActions getCriticalActions getHighRiskActions
    getMediumRiskActions getLowRiskActions
  rcases hm : c.monthly_recurring_revenue with _ | mrr <;>
    rcases hl : c.lifetime_value with _ | ltv <;>
      simp only [hm, hl] <;>
        split_ifs <;>
          (try simp [List.pairwise_cons]) <;> norm_num

/-- Claim C4: for every snapshot, customer id, churn probability and risk
level, the recommendation list has length at most 3 and is strictly
descending in `predicted_impact`. -/
theorem recommendActions_shape (s : Snapshot) (cid : String) (p : ℚ)
    (lvl : String) :
    (recommendActions s cid p lvl).length ≤ 3 ∧
    List.Pairwise
      (fun a b : ActionRec => b.predicted_impact < a.predicted_impact)
      (recommendActions s cid p lvl) := by
  unfold recommendActions
  cases hf : s.customers.find? (fun c => c.customer_id == cid) with
  | none => simp
  | some customer =>
    refine ⟨List.length_take_le 3 _, ?_⟩
    have hsorted : List.Pairwise impactGe
        (List.insertionSort impactGe (candidateActions customer p lvl)) :=
      List.sorted_insertionSort impactGe _
    have hperm :=
      List.perm_insertionSort impactGe (candidateActions customer p lvl)
    have hne : List.Pairwise
        (fun a b : ActionRec => a.predicted_impact ≠ b.predicted_impact)
        (List.insertionSort impactGe (candidateActions customer p lvl)) :=
      (hperm.pairwise_iff (by intro a b h; exact h.symm)).2
        (candidateActions_impact_ne customer p lvl)
    have hstrict : List.Pairwise
        (fun a b : ActionRec => b.predicted_impact < a.predicted_impact)
        (List.insertionSort impactGe (candidateActions customer p lvl)) :=
      (pairwiseConj hsorted hne).imp
        fun h => lt_of_le_of_ne h.1 (Ne.symm h.2)
    exact hstrict.sublist (List.take_sublist 3 _)

/-! ## Action execution (action_engine/action_recommender.py, execute_action) -/

/-- Row of `retention_actions` (database/models.py, class RetentionAction). -/
structure RetentionAction where
  action_id : String
  customer_id : String
  action_type : String
  recommended_at : ℤ
  executed_at : Option ℤ
  status : String
  predicted_impact : Option ℚ
  deriving DecidableEq

/-- What a Python call can do as observed by its caller: return a value or
let an exception propagate. `ActionRecommender.execute_action` only ever
returns a bool (it raises nothing itself and calls nothing that the claim's
scenario makes raise). -/
inductive ExecOutcome
  | raised (exceptionName : String)
  | returned (value : Bool)
  deriving DecidableEq

/-- The row predicate of the query inside `execute_action`. -/
def matchesAction (action_id customer_id : String) (a : RetentionAction) : Bool :=
  a.action_id == action_id && a.customer_id == customer_id

/-- The in-place mutation `action.status = 'executed'; action.executed_at =
utcnow(); commit()` applied to the row the query returned (the first match). -/
def updateFirstAction (action_id customer_id : String) (now : ℤ) :
    List RetentionAction → List RetentionAction
  | [] => []
  | a :: rest =>
    if matchesAction action_id customer_id a then
      { a with status := "executed", executed_at := some now } :: rest
    else a :: updateFirstAction action_id customer_id now rest

/-- `ActionRecommender.execute_action(action_id, customer_id)`: look the
action up; return False when absent (a logged error) or when its status is
not "pending" (a logged warning); otherwise set status "executed" with the
execution timestamp and return True. -/
def executeAction (db : List RetentionAction) (action_id customer_id : String)
    (now : ℤ) : ExecOutcome × List RetentionAction :=
  match db.find? (matchesAction action_id customer_id) with
  | none => (.returned false, db)
  | some action =>
    if action.status ≠ "pending" then (.returned false, db)
    else (.returned true, updateFirstAction action_id customer_id now db)

/-- After `updateFirstAction`, the first row matching the same keys is the
updated row. -/
theorem find_updateFirstAction (aid cid : String) (now : ℤ) :
    ∀ (db : List RetentionAction) (a : RetentionAction),
      db.find? (matchesAction aid cid) = some a →
      (updateFirstAction aid cid now db).find? (matchesAction aid cid) =
        some { a with status := "executed", executed_at := some now }
  | [], _, h => by simp at h
  | b :: rest, a, h => by
    by_cases hb : matchesAction aid cid b
    · rw [List.find?_cons_of_pos _ hb] at h
      obtain rfl : b = a := Option.some.inj h
      unfold updateFirstAction
      rw [if_pos hb]
      exact List.find?_cons_of_pos _
        (show matchesAction aid cid
          { b with status := "executed", executed_at := some now } = true from hb)
    · rw [List.find?_cons_of_neg _ hb] at h
      unfold updateFirstAction
      rw [if_neg hb, List.find?_cons_of_neg _ hb]
      exact find_updateFirstAction aid cid now rest a h

/-- Claim C5: once `execute_action` succeeds on an action id, the stored
status is "executed", and a second call on the same id returns False and
leaves the store unchanged. -/
theorem executeAction_at_most_once (db : List RetentionAction)
    (aid cid : String) (t₁ t₂ : ℤ) (db' : List RetentionAction)
    (h : executeAction db aid cid t₁ = (.returned true, db')) :
    executeAction db' aid cid t₂ = (.returned false, db') ∧
    ∃ a, db'.find? (matchesAction aid cid) = some a ∧ a.status = "executed" := by
  unfold executeAction at h
  cases hf : db.find? (matchesAction aid cid) with
  | none => rw [hf] at h; simp at h
  | some a =>
    rw [hf] at h
    dsimp only at h
    by_cases hs : a.status ≠ "pending"
    · rw [if_pos hs] at h; simp at h
    · rw [if_neg hs] at h
      have hdb' : db' = updateFirstAction aid cid t₁ db :=
        (congrArg Prod.snd h).symm
      have hfind := find_updateFirstAction aid cid t₁ db a hf
      rw [← hdb'] at hfind
      refine ⟨?_, _, hfind, rfl⟩
      unfold executeAction
      rw [hfind]
      dsimp only
      rw [if_pos (by decide)]

/-- Witness for `executeAction_at_most_once`: one pending action, executed
at t=5, then re-executed at t=9. -/
theorem executeAction_at_most_once_witness :
    executeAction
        [(⟨"a1", "c1", "discount", 0, none, "pending", none⟩ : RetentionAction)]
        "a1" "c1" 5 =
      (.returned true,
        [(⟨"a1", "c1", "discount", 0, some 5, "executed", none⟩ :
          RetentionAction)]) ∧
    (executeAction
        [(⟨"a1", "c1", "discount", 0, some 5, "executed", none⟩ :
          RetentionAction)] "a1" "c1" 9 =
      (.returned false,
        [(⟨"a1", "c1", "discount", 0, some 5, "executed", none⟩ :
          RetentionAction)]) ∧
     ∃ a, List.find? (matchesAction "a1" "c1")
         [(⟨"a1", "c1", "discount", 0, some 5, "executed", none⟩ :
           RetentionAction)] = some a ∧
       a.status = "executed") :=
  ⟨by decide,
    executeAction_at_most_once
      [(⟨"a1", "c1", "discount", 0, none, "pending", none⟩ : RetentionAction)]
      "a1" "c1" 5 9
      [(⟨"a1", "c1", "discount", 0, some 5, "executed", none⟩ : RetentionAction)]
      (by decide)⟩

/-- Claim C6 counterexample: with an empty store, so that no action with id
"a1" exists for customer "c1", `execute_action` returns False (a logged
error); it does not raise NotFoundError as the claim states. -/
theorem executeAction_notFound_counterexample :
    List.find? (matchesAction "a1" "c1") ([] : List RetentionAction) = none ∧
    executeAction [] "a1" "c1" 0 = (.returned false, []) ∧
    ExecOutcome.returned false ≠ ExecOutcome.raised "NotFoundError" := by
  decide

/-- Claim C6 (amended): `execute_action` returns False, with a logged error
rather than a raised NotFoundError, when no action with that id exists for
that customer, leaving the store unchanged; returns False (logged warning)
when the action exists but its status is not "pending", leaving the store
unchanged; and otherwise sets the status to "executed" with an execution
timestamp and returns True. -/
theorem executeAction_behavior (db : List RetentionAction)
    (aid cid : String) (now : ℤ) :
    (db.find? (matchesAction aid cid) = none →
      executeAction db aid cid now = (.returned false, db)) ∧
    (∀ a, db.find? (matchesAction aid cid) = some a → a.status ≠ "pending" →
      executeAction db aid cid now = (.returned false, db)) ∧
    (∀ a, db.find? (matchesAction aid cid) = some a → a.status = "pending" →
      executeAction db aid cid now =
        (.returned true, updateFirstAction aid cid now db) ∧
      (updateFirstAction aid cid now db).find? (matchesAction aid cid) =
        some { a with status := "executed", executed_at := some now }) := by
  refine ⟨?_, ?_, ?_⟩
  · intro h
    unfold executeAction
    rw [h]
  · intro a ha hs
    unfold executeAction
    rw [ha]
    dsimp only
    rw [if_pos hs]
  · intro a ha hs
    refine ⟨?_, find_updateFirstAction aid cid now db a ha⟩
    unfold executeAction
    rw [ha]
    dsimp only
    rw [if_neg (not_not_intro hs)]

/-- Witness for `executeAction_behavior`: the pending branch at a concrete
one-action store. -/
theorem executeAction_behavior_witness :
    executeAction
        [(⟨"a1", "c1", "discount", 0, none, "pending", none⟩ : RetentionAction)]
        "a1" "c1" 5 =
      (.returned true,
        updateFirstAction "a1" "c1" 5
          [(⟨"a1", "c1", "discount", 0, none, "pending", none⟩ :
            RetentionAction)]) ∧
    (updateFirstAction "a1" "c1" 5
        [(⟨"a1", "c1", "discount", 0, none, "pending", none⟩ :
          RetentionAction)]).find? (matchesAction "a1" "c1") =
      some ⟨"a1", "c1", "discount", 0, some 5, "executed", none⟩ :=
  (executeAction_behavior _ "a1" "c1" 5).2.2
    ⟨"a1", "c1", "discount", 0, none, "pending", none⟩ (by decide) (by decide)

/-! ## Feature computation (features/feature_store.py) -/

/-- A feature value: the computed feature dicts hold numbers and strings. -/
inductive FeatureValue
  | num (q : ℚ)
  | str (s : String)
  deriving DecidableEq

/-- A computed feature dict, as an association list in insertion order. The
sub-feature dicts use pairwise distinct keys, so `dict.update` is append. -/
abbrev Features := List (String × FeatureValue)

/-- `features.get(key, default)` for the numeric reads in
`_compute_behavioral_features`. -/
def getNum (fs : Features) (k : String) (d : ℚ) : ℚ :=
  match fs.lookup k with
  | some (.num q) => q
  | _ => d

/-- Seconds in a day; `timedelta(days=n)` is `n * secondsPerDay` seconds. -/
def secondsPerDay : ℤ := 86400

/-- `timedelta.days` of a difference in seconds: floor division, as Python
floors toward negative infinity. -/
def timedeltaDays (diffSeconds : ℤ) : ℤ :=
  Int.fdiv diffSeconds secondsPerDay

/-- `FeatureStore._compute_demographic_features`; `nowDate` is the day
number of `datetime.utcnow().date()`. -/
def computeDemographicFeatures (customer : Customer) (nowDate : ℤ) : Features :=
  [("customer_segment", .str customer.customer_segment),
   ("age_range", .str (customer.age_range.getD "unknown")),
   ("household_size", .num ((customer.household_size.getD 0 : ℤ) : ℚ)),
   ("estimated_income", .str (customer.estimated_income.getD "unknown")),
   ("tenure_days", .num (match customer.account_created_date with
     | some d => ((nowDate - d : ℤ) : ℚ)
     | none => 0)),
   ("monthly_recurring_revenue", .num (customer.monthly_recurring_revenue.getD 0)),
   ("lifetime_value", .num (customer.lifetime_value.getD 0)),
   ("auto_renew", .num (if customer.auto_renew = some true then 1 else 0)),
   ("days_until_contract_end", .num (match customer.contract_end_date with
     | some d => ((d - nowDate : ℤ) : ℚ)
     | none => 999))]

/-- The 30-day query window of `_compute_service_features`. -/
def serviceWindow (s : Snapshot) (customer_id : String) (now : ℤ) :
    List ServiceInteraction :=
  s.serviceInteractions.filter fun i =>
    i.customer_id == customer_id &&
      decide (now - 30 * secondsPerDay ≤ i.timestamp)

/-- `FeatureStore._compute_service_features`. -/
def computeServiceFeatures (s : Snapshot) (customer_id : String) (now : ℤ) :
    Features :=
  match serviceWindow s customer_id now with
  | [] =>
    [("service_calls_30d", .num 0),
     ("avg_sentiment_30d", .num 0),
     ("unresolved_calls_30d", .num 0),
     ("avg_call_duration_30d", .num 0),
     ("days_since_last_call", .num 999)]
  | i :: rest =>
    let interactions := i :: rest
    let sentiments := interactions.filterMap fun j => j.sentiment_score
    let durations := interactions.filterMap fun j => j.duration_seconds
    let unresolved := interactions.filter fun j =>
      j.resolution_status == some "unresolved"
    let last_call := rest.foldl (fun m j => max m j.timestamp) i.timestamp
    [("service_calls_30d", .num (interactions.length : ℚ)),
     ("avg_sentiment_30d", .num (if sentiments.isEmpty then 0
       else sentiments.sum / (sentiments.length : ℚ))),
     ("unresolved_calls_30d", .num (unresolved.length : ℚ)),
     ("avg_call_duration_30d", .num (if durations.isEmpty then 0
       else ((durations.sum : ℤ) : ℚ) / (durations.length : ℚ))),
     ("days_since_last_call", .num ((timedeltaDays (now - last_call) : ℤ) : ℚ))]

/-- The 30-day query window of `_compute_stb_features`. -/
def stbWindow (s : Snapshot) (customer_id : String) (now : ℤ) :
    List STBTelemetry :=
  s.stbEvents.filter fun e =>
    e.customer_id == customer_id &&
      decide (now - 30 * secondsPerDay ≤ e.timestamp)

/-- `FeatureStore._compute_stb_features`. -/
def computeStbFeatures (s : Snapshot) (customer_id : String) (now : ℤ) :
    Features :=
  match stbWindow s customer_id now with
  | [] =>
    [("stb_errors_30d", .num 0),
     ("avg_network_quality_30d", .num 100),
     ("total_buffer_events_30d", .num 0),
     ("total_viewing_hours_30d", .num 0)]
  | e :: rest =>
    let events := e :: rest
    let errors := events.filter fun x => x.event_type == some "error"
    let network_qualities := events.filterMap fun x => x.network_quality
    let buffer_events := (events.map fun x => x.buffer_events).sum
    let viewing_seconds :=
      (events.map fun x => x.viewing_duration_seconds.getD 0).sum
    [("stb_errors_30d", .num (errors.length : ℚ)),
     ("avg_network_quality_30d", .num (if network_qualities.isEmpty then 100
       else network_qualities.sum / (network_qualities.length : ℚ))),
     ("total_buffer_events_30d", .num ((buffer_events : ℤ) : ℚ)),
     ("total_viewing_hours_30d", .num (((viewing_seconds : ℤ) : ℚ) / 3600))]

/-- The 30-day query window of `_compute_web_features`; SQL equality on a
nullable column never matches NULL. -/
def webWindow (s : Snapshot) (customer_id : String) (now : ℤ) :
    List WebAnalyticsEvent :=
  s.webEvents.filter fun e =>
    e.customer_id == some customer_id &&
      decide (now - 30 * secondsPerDay ≤ e.timestamp)

/-- `FeatureStore._compute_web_features`. -/
def computeWebFeatures (s : Snapshot) (customer_id : String) (now : ℤ) :
    Features :=
  match webWindow s customer_id now with
  | [] =>
    [("web_sessions_30d", .num 0),
     ("total_engagement_minutes_30d", .num 0),
     ("days_since_last_web_activity", .num 999)]
  | e :: rest =>
    let events := e :: rest
    let sessions := (events.map fun x => x.session_id).dedup
    let engagement_ms := (events.map fun x => x.engagement_time_msec.getD 0).sum
    let last_activity := rest.foldl (fun m x => max m x.timestamp) e.timestamp
    [("web_sessions_30d", .num (sessions.length : ℚ)),
     ("total_engagement_minutes_30d",
       .num (((engagement_ms : ℤ) : ℚ) / 60000)),
     ("days_since_last_web_activity",
       .num ((timedeltaDays (now - last_activity) : ℤ) : ℚ))]

/-- The 90-day query window of `_compute_billing_features`. -/
def billingWindow (s : Snapshot) (customer_id : String) (now : ℤ) :
    List BillingEvent :=
  s.billingEvents.filter fun e =>
    e.customer_id == customer_id &&
      decide (now - 90 * secondsPerDay ≤ e.timestamp)

/-- The `ORDER BY timestamp DESC` of the billing query: newest first. -/
def billingNewerFirst (a b : BillingEvent) : Prop :=
  b.timestamp ≤ a.timestamp

instance : DecidableRel billingNewerFirst :=
  fun a b => inferInstanceAs (Decidable (b.timestamp ≤ a.timestamp))

/-- `FeatureStore._compute_billing_features`: 90-day window ordered newest
first (the code tests emptiness before looking at the head; sorting an empty
result set is empty, so matching on the sorted list is equivalent). -/
def computeBillingFeatures (s : Snapshot) (customer_id : String) (now : ℤ) :
    Features :=
  match List.insertionSort billingNewerFirst (billingWindow s customer_id now) with
  | [] =>
    [("payment_failures_90d", .num 0),
     ("disputes_90d", .num 0),
     ("days_overdue", .num 0),
     ("account_balance", .num 0)]
  | latest :: rest =>
    let events := latest :: rest
    let failures := events.filter fun e => e.event_type == "payment_failed"
    let disputes := events.filter fun e => e.event_type == "dispute_opened"
    [("payment_failures_90d", .num (failures.length : ℚ)),
     ("disputes_90d", .num (disputes.length : ℚ)),
     ("days_overdue", .num ((latest.days_overdue.getD 0 : ℤ) : ℚ)),
     ("account_balance", .num (latest.account_balance.getD 0))]

/-- `FeatureStore._compute_behavioral_features`. -/
def computeBehavioralFeatures (s : Snapshot) (customer_id : String)
    (_customer : Customer) (now : ℤ) : Features :=
  let stb_features := computeStbFeatures s customer_id now
  let web_features := computeWebFeatures s customer_id now
  let engagement_score :=
    min (getNum stb_features "total_viewing_hours_30d" 0 / 100) 1 * 0.5 +
    min (getNum web_features "web_sessions_30d" 0 / 30) 1 * 0.5
  let service_features := computeServiceFeatures s customer_id now
  let billing_features := computeBillingFeatures s customer_id now
  let risk_score :=
    min (getNum service_features "unresolved_calls_30d" 0 / 5) 1 * 0.3 +
    min (getNum billing_features "payment_failures_90d" 0 / 3) 1 * 0.4 +
    min (getNum billing_features "days_overdue" 0 / 30) 1 * 0.3
  [("engagement_score", .num engagement_score),
   ("risk_score", .num risk_score)]

/-- `FeatureStore._compute_features`: the empty dict when the customer is
unknown, otherwise the union of the sub-feature dicts in insertion order.
The demographic part reads `utcnow().date()`, modelled as the day number of
`now`. -/
def computeFeatures (s : Snapshot) (customer_id : String) (now : ℤ) :
    Features :=
  match s.customers.find? (fun c => c.customer_id == customer_id) with
  | none => []
  | some customer =>
    computeDemographicFeatures customer (Int.fdiv now secondsPerDay) ++
    computeServiceFeatures s customer_id now ++
    computeStbFeatures s customer_id now ++
    computeWebFeatures s customer_id now ++
    computeBillingFeatures s customer_id now ++
    computeBehavioralFeatures s customer_id customer now

/-- The `stb_features.get('total_viewing_hours_30d', 0)` read of
`_compute_behavioral_features`. -/
def aggViewingHours (s : Snapshot) (cid : String) (now : ℤ) : ℚ :=
  getNum (computeStbFeatures s cid now) "total_viewing_hours_30d" 0

/-- The `web_features.get('web_sessions_30d', 0)` read. -/
def aggWebSessions (s : Snapshot) (cid : String) (now : ℤ) : ℚ :=
  getNum (computeWebFeatures s cid now) "web_sessions_30d" 0

/-- The `service_features.get('unresolved_calls_30d', 0)` read. -/
def aggUnresolvedCalls (s : Snapshot) (cid : String) (now : ℤ) : ℚ :=
  getNum (computeServiceFeatures s cid now) "unresolved_calls_30d" 0

/-- The `billing_features.get('payment_failures_90d', 0)` read. -/
def aggPaymentFailures (s : Snapshot) (cid : String) (now : ℤ) : ℚ :=
  getNum (computeBillingFeatures s cid now) "payment_failures_90d" 0

/-- The `billing_features.get('days_overdue', 0)` read. -/
def aggDaysOverdue (s : Snapshot) (cid : String) (now : ℤ) : ℚ :=
  getNum (computeBillingFeatures s cid now) "days_overdue" 0

/-- A customer with only the mandatory columns set, used as concrete input
by several witnesses. -/
def sampleCustomer : Customer :=
  ⟨"c1", "residential", none, none, none, none, none, none, none, none⟩

/-- A store snapshot holding `sampleCustomer` and no events. -/
def sampleSnapshot : Snapshot :=
  ⟨[sampleCustomer], [], [], [], []⟩

/-- Claim C3: feature computation is deterministic — computations against
equal event/profile snapshots, for the same customer and as-of time, agree
on the value of every feature name. -/
theorem computeFeatures_deterministic (s₁ s₂ : Snapshot) (cid : String)
    (t : ℤ) (h : s₁ = s₂) (name : String) :
    (computeFeatures s₁ cid t).lookup name =
      (computeFeatures s₂ cid t).lookup name := by
  rw [h]

/-- Witness for `computeFeatures_deterministic` on `sampleSnapshot`. -/
theorem computeFeatures_deterministic_witness :
    sampleSnapshot = sampleSnapshot ∧
    (computeFeatures sampleSnapshot "c1" 0).lookup "engagement_score" =
      (computeFeatures sampleSnapshot "c1" 0).lookup "engagement_score" :=
  ⟨rfl, computeFeatures_deterministic sampleSnapshot sampleSnapshot "c1" 0 rfl
    "engagement_score"⟩

/-- Keys never occurring in a feature dict do not affect its lookup. -/
theorem lookup_append_right {l₁ l₂ : Features} {k : String}
    (h : ∀ p ∈ l₁, p.1 ≠ k) : (l₁ ++ l₂).lookup k = l₂.lookup k := by
  induction l₁ with
  | nil => rfl
  | cons p rest ih =>
    obtain ⟨k1, v1⟩ := p
    have hk : (k == k1) = false :=
      beq_eq_false_iff_ne.mpr fun e =>
        h (k1, v1) (List.mem_cons_self _ _) e.symm
    simpa [List.lookup, hk] using
      ih fun q hq => h q (List.mem_cons_of_mem _ hq)

/-- A hit in the left part of an appended feature dict wins. -/
theorem lookup_append_left {l₁ l₂ : Features} {k : String} {v : FeatureValue}
    (h : l₁.lookup k = some v) : (l₁ ++ l₂).lookup k = some v := by
  induction l₁ with
  | nil => simp [List.lookup] at h
  | cons p rest ih =>
    obtain ⟨k1, v1⟩ := p
    cases hk : (k == k1) with
    | true => simp_all [List.lookup]
    | false =>
      simp only [List.lookup, hk] at h
      simpa [List.lookup, hk] using ih h

/-- Entries of a dict whose key list avoids `k` all differ from `k`. -/
theorem keys_disjoint {l : Features} {k : String}
    (hk : k ∉ l.map Prod.fst) : ∀ p ∈ l, p.1 ≠ k :=
  fun _ hp he => hk (he ▸ List.mem_map_of_mem Prod.fst hp)

/-- The demographic feature keys. -/
theorem demographicFeatures_keys (c : Customer) (d : ℤ) :
    (computeDemographicFeatures c d).map Prod.fst =
      ["customer_segment", "age_range", "household_size", "estimated_income",
       "tenure_days", "monthly_recurring_revenue", "lifetime_value",
       "auto_renew", "days_until_contract_end"] := rfl

/-- The service feature keys, in both branches. -/
theorem serviceFeatures_keys (s : Snapshot) (cid : String) (now : ℤ) :
    (computeServiceFeatures s cid now).map Prod.fst =
      ["service_calls_30d", "avg_sentiment_30d", "unresolved_calls_30d",
       "avg_call_duration_30d", "days_since_last_call"] := by
  unfold computeServiceFeatures
  cases serviceWindow s cid now <;> rfl

/-- The STB feature keys, in both branches. -/
theorem stbFeatures_keys (s : Snapshot) (cid : String) (now : ℤ) :
    (computeStbFeatures s cid now).map Prod.fst =
      ["stb_errors_30d", "avg_network_quality_30d", "total_buffer_events_30d",
       "total_viewing_hours_30d"] := by
  unfold computeStbFeatures
  cases stbWindow s cid now <;> rfl

/-- The web feature keys, in both branches. -/
theorem webFeatures_keys (s : Snapshot) (cid : String) (now : ℤ) :
    (computeWebFeatures s cid now).map Prod.fst =
      ["web_sessions_30d", "total_engagement_minutes_30d",
       "days_since_last_web_activity"] := by
  unfold computeWebFeatures
  cases webWindow s cid now <;> rfl

/-- Claim C7: for an existing customer, an empty 30-day telemetry window
yields `stb_errors_30d = 0` and `avg_network_quality_30d = 100.0`, and an
empty 90-day billing window yields `days_overdue = 0` in the computed
feature vector. -/
theorem emptyWindow_defaults (s : Snapshot) (cid : String) (now : ℤ)
    (c : Customer)
    (hc : s.customers.find? (fun x => x.customer_id == cid) = some c) :
    (stbWindow s cid now = [] →
      (computeFeatures s cid now).lookup "stb_errors_30d" =
        some (.num 0) ∧
      (computeFeatures s cid now).lookup "avg_network_quality_30d" =
        some (.num 100)) ∧
    (billingWindow s cid now = [] →
      (computeFeatures s cid now).lookup "days_overdue" = some (.num 0)) := by
  unfold computeFeatures
  rw [hc]
  dsimp only
  simp only [List.append_assoc]
  constructor
  · intro hstb
    have hstbF : computeStbFeatures s cid now =
        [("stb_errors_30d", .num 0),
         ("avg_network_quality_30d", .num 100),
         ("total_buffer_events_30d", .num 0),
         ("total_viewing_hours_30d", .num 0)] := by
      unfold computeStbFeatures
      rw [hstb]
    constructor
    · rw [lookup_append_right (keys_disjoint
          (by rw [demographicFeatures_keys]; decide)),
        lookup_append_right (keys_disjoint
          (by rw [serviceFeatures_keys]; decide)),
        hstbF]
      rfl
    · rw [lookup_append_right (keys_disjoint
          (by rw [demographicFeatures_keys]; decide)),
        lookup_append_right (keys_disjoint
          (by rw [serviceFeatures_keys]; decide)),
        hstbF]
      rfl
  · intro hbil
    have hbilF : computeBillingFeatures s cid now =
        [("payment_failures_90d", .num 0),
         ("disputes_90d", .num 0),
         ("days_overdue", .num 0),
         ("account_balance", .num 0)] := by
      unfold computeBillingFeatures
      rw [hbil]
      rfl
    rw [lookup_append_right (keys_disjoint
        (by rw [demographicFeatures_keys]; decide)),
      lookup_append_right (keys_disjoint
        (by rw [serviceFeatures_keys]; decide)),
      lookup_append_right (keys_disjoint
        (by rw [stbFeatures_keys]; decide)),
      lookup_append_right (keys_disjoint
        (by rw [webFeatures_keys]; decide)),
      hbilF]
    rfl

/-- Witness for `emptyWindow_defaults` on `sampleSnapshot`, which has no
events at all. -/
theorem emptyWindow_defaults_witness :
    (List.find? (fun x => x.customer_id == "c1") sampleSnapshot.customers =
      some sampleCustomer) ∧
    (stbWindow sampleSnapshot "c1" 0 = []) ∧
    (billingWindow sampleSnapshot "c1" 0 = []) ∧
    (computeFeatures sampleSnapshot "c1" 0).lookup "stb_errors_30d" =
      some (.num 0) ∧
    (computeFeatures sampleSnapshot "c1" 0).lookup "avg_network_quality_30d" =
      some (.num 100) ∧
    (computeFeatures sampleSnapshot "c1" 0).lookup "days_overdue" =
      some (.num 0) := by
  have h := emptyWindow_defaults sampleSnapshot "c1" 0 sampleCustomer (by rfl)
  have h1 := h.1 (by rfl)
  exact ⟨by rfl, by rfl, by rfl, h1.1, h1.2, h.2 (by rfl)⟩

/-- The billing feature keys, in both branches. -/
theorem billingFeatures_keys (s : Snapshot) (cid : String) (now : ℤ) :
    (computeBillingFeatures s cid now).map Prod.fst =
      ["payment_failures_90d", "disputes_90d", "days_overdue",
       "account_balance"] := by
  unfold computeBillingFeatures
  cases List.insertionSort billingNewerFirst (billingWindow s cid now) <;> rfl

/-- For an existing customer the computed `engagement_score` entry is the
behavioral composite of the windowed aggregates. -/
theorem lookup_engagement_score (s : Snapshot) (cid : String) (now : ℤ)
    (c : Customer)
    (hc : s.customers.find? (fun x => x.customer_id == cid) = some c) :
    (computeFeatures s cid now).lookup "engagement_score" =
      some (.num (min (aggViewingHours s cid now / 100) 1 * 0.5 +
                  min (aggWebSessions s cid now / 30) 1 * 0.5)) := by
  unfold computeFeatures
  rw [hc]
  dsimp only
  simp only [List.append_assoc]
  rw [lookup_append_right (keys_disjoint
        (by rw [demographicFeatures_keys]; decide)),
    lookup_append_right (keys_disjoint
        (by rw [serviceFeatures_keys]; decide)),
    lookup_append_right (keys_disjoint
        (by rw [stbFeatures_keys]; decide)),
    lookup_append_right (keys_disjoint
        (by rw [webFeatures_keys]; decide)),
    lookup_append_right (keys_disjoint
        (by rw [billingFeatures_keys]; decide))]
  rfl

/-- For an existing customer the computed `risk_score` entry is the
behavioral composite of the windowed aggregates. -/
theorem lookup_risk_score (s : Snapshot) (cid : String) (now : ℤ)
    (c : Customer)
    (hc : s.customers.find? (fun x => x.customer_id == cid) = some c) :
    (computeFeatures s cid now).lookup "risk_score" =
      some (.num (min (aggUnresolvedCalls s cid now / 5) 1 * 0.3 +
                  min (aggPaymentFailures s cid now / 3) 1 * 0.4 +
                  min (aggDaysOverdue s cid now / 30) 1 * 0.3)) := by
  unfold computeFeatures
  rw [hc]
  dsimp only
  simp only [List.append_assoc]
  rw [lookup_append_right (keys_disjoint
        (by rw [demographicFeatures_keys]; decide)),
    lookup_append_right (keys_disjoint
        (by rw [serviceFeatures_keys]; decide)),
    lookup_append_right (keys_disjoint
        (by rw [stbFeatures_keys]; decide)),
    lookup_append_right (keys_disjoint
        (by rw [webFeatures_keys]; decide)),
    lookup_append_right (keys_disjoint
        (by rw [billingFeatures_keys]; decide))]
  rfl

/-- Distinct-session counts are nonnegative. -/
theorem aggWebSessions_nonneg (s : Snapshot) (cid : String) (now : ℤ) :
    0 ≤ aggWebSessions s cid now := by
  unfold aggWebSessions computeWebFeatures
  cases webWindow s cid now with
  | nil => norm_num [getNum, List.lookup]
  | cons e rest =>
    simp only [getNum, List.lookup]
    norm_num

/-- Unresolved-call counts are nonnegative. -/
theorem aggUnresolvedCalls_nonneg (s : Snapshot) (cid : String) (now : ℤ) :
    0 ≤ aggUnresolvedCalls s cid now := by
  unfold aggUnresolvedCalls computeServiceFeatures
  cases serviceWindow s cid now <;>
    simp only [getNum, List.lookup,
      show ("unresolved_calls_30d" == "service_calls_30d") = false from rfl,
      show ("unresolved_calls_30d" == "avg_sentiment_30d") = false from rfl,
      show ("unresolved_calls_30d" == "unresolved_calls_30d") = true from rfl] <;>
    positivity

/-- Payment-failure counts are nonnegative. -/
theorem aggPaymentFailures_nonneg (s : Snapshot) (cid : String) (now : ℤ) :
    0 ≤ aggPaymentFailures s cid now := by
  unfold aggPaymentFailures computeBillingFeatures
  cases List.insertionSort billingNewerFirst (billingWindow s cid now) with
  | nil => norm_num [getNum, List.lookup]
  | cons e rest =>
    simp only [getNum, List.lookup]
    norm_num

/-- Claim C8 (amended): for an existing customer the composite features
satisfy exactly `engagement_score = 0.5·min(viewing_hours/100,1) +
0.5·min(web_sessions/30,1)` and `risk_score = 0.3·min(unresolved_calls/5,1)
+ 0.4·min(payment_failures/3,1) + 0.3·min(days_overdue/30,1)` over the
windowed aggregates; each score is at most 1 for every input, and is
nonnegative (hence in [0,1]) whenever the aggregates feeding it are
nonnegative — `min(·,1)` clips above only, so a negative stored viewing
duration or days-overdue value drives a score below 0. -/
theorem behavioral_scores_spec (s : Snapshot) (cid : String) (now : ℤ)
    (c : Customer)
    (hc : s.customers.find? (fun x => x.customer_id == cid) = some c) :
    (computeFeatures s cid now).lookup "engagement_score" =
      some (.num (0.5 * min (aggViewingHours s cid now / 100) 1 +
                  0.5 * min (aggWebSessions s cid now / 30) 1)) ∧
    (computeFeatures s cid now).lookup "risk_score" =
      some (.num (0.3 * min (aggUnresolvedCalls s cid now / 5) 1 +
                  0.4 * min (aggPaymentFailures s cid now / 3) 1 +
                  0.3 * min (aggDaysOverdue s cid now / 30) 1)) ∧
    0.5 * min (aggViewingHours s cid now / 100) 1 +
        0.5 * min (aggWebSessions s cid now / 30) 1 ≤ 1 ∧
    0.3 * min (aggUnresolvedCalls s cid now / 5) 1 +
        0.4 * min (aggPaymentFailures s cid now / 3) 1 +
        0.3 * min (aggDaysOverdue s cid now / 30) 1 ≤ 1 ∧
    (0 ≤ aggViewingHours s cid now →
      0 ≤ 0.5 * min (aggViewingHours s cid now / 100) 1 +
          0.5 * min (aggWebSessions s cid now / 30) 1) ∧
    (0 ≤ aggDaysOverdue s cid now →
      0 ≤ 0.3 * min (aggUnresolvedCalls s cid now / 5) 1 +
          0.4 * min (aggPaymentFailures s cid now / 3) 1 +
          0.3 * min (aggDaysOverdue s cid now / 30) 1) := by
  have hvh1 : min (aggViewingHours s cid now / 100) 1 ≤ 1 := min_le_right _ _
  have hws1 : min (aggWebSessions s cid now / 30) 1 ≤ 1 := min_le_right _ _
  have hu1 : min (aggUnresolvedCalls s cid now / 5) 1 ≤ 1 := min_le_right _ _
  have hpf1 : min (aggPaymentFailures s cid now / 3) 1 ≤ 1 := min_le_right _ _
  have hdo1 : min (aggDaysOverdue s cid now / 30) 1 ≤ 1 := min_le_right _ _
  have hws0 : 0 ≤ min (aggWebSessions s cid now / 30) 1 :=
    le_min (div_nonneg (aggWebSessions_nonneg s cid now) (by norm_num))
      zero_le_one
  have hu0 : 0 ≤ min (aggUnresolvedCalls s cid now / 5) 1 :=
    le_min (div_nonneg (aggUnresolvedCalls_nonneg s cid now) (by norm_num))
      zero_le_one
  have hpf0 : 0 ≤ min (aggPaymentFailures s cid now / 3) 1 :=
    le_min (div_nonneg (aggPaymentFailures_nonneg s cid now) (by norm_num))
      zero_le_one
  refine ⟨?_, ?_, by linarith, by linarith, ?_, ?_⟩
  · rw [lookup_engagement_score s cid now c hc]
    congr 1
    congr 1
    ring
  · rw [lookup_risk_score s cid now c hc]
    congr 1
    congr 1
    ring
  · intro hvh
    have : 0 ≤ min (aggViewingHours s cid now / 100) 1 :=
      le_min (div_nonneg hvh (by norm_num)) zero_le_one
    linarith
  · intro hdo
    have : 0 ≤ min (aggDaysOverdue s cid now / 30) 1 :=
      le_min (div_nonneg hdo (by norm_num)) zero_le_one
    linarith

/-- Claim C8 counterexample: a single in-window billing event carrying
`days_overdue = -1000` (the schema and ingestion accept any integer) drives
`risk_score` to -10, outside [0,1], so the scores do not lie in [0,1] for
every input. -/
theorem riskScore_negative_counterexample :
    (computeFeatures
        ⟨[⟨"c1", "residential", none, none, none, none, none, none, none,
           none⟩],
         [], [], [],
         [⟨"payment", "c1", 0, "tx1", none, none, some (-1000)⟩]⟩
        "c1" 0).lookup "risk_score" = some (.num (-10)) ∧
    ¬(0 ≤ (-10 : ℚ) ∧ (-10 : ℚ) ≤ 1) := by
  constructor
  · rw [lookup_risk_score _ "c1" 0
      ⟨"c1", "residential", none, none, none, none, none, none, none, none⟩
      (by decide)]
    rw [show aggUnresolvedCalls
        ⟨[⟨"c1", "residential", none, none, none, none, none, none, none,
           none⟩], [], [], [],
         [⟨"payment", "c1", 0, "tx1", none, none, some (-1000)⟩]⟩
        "c1" 0 = 0 from by decide]
    rw [show aggPaymentFailures
        ⟨[⟨"c1", "residential", none, none, none, none, none, none, none,
           none⟩], [], [], [],
         [⟨"payment", "c1", 0, "tx1", none, none, some (-1000)⟩]⟩
        "c1" 0 = 0 from by decide]
    rw [show aggDaysOverdue
        ⟨[⟨"c1", "residential", none, none, none, none, none, none, none,
           none⟩], [], [], [],
         [⟨"payment", "c1", 0, "tx1", none, none, some (-1000)⟩]⟩
        "c1" 0 = -1000 from by decide]
    simp only [Option.some.injEq, FeatureValue.num.injEq]
    rw [min_def, min_def, min_def]
    norm_num
  · norm_num

/-- Witness for `behavioral_scores_spec` on `sampleSnapshot`, whose
aggregates are all 0: both scores evaluate to 0. -/
theorem behavioral_scores_spec_witness :
    (List.find? (fun x => x.customer_id == "c1") sampleSnapshot.customers =
      some sampleCustomer) ∧
    (0 ≤ aggViewingHours sampleSnapshot "c1" 0) ∧
    (computeFeatures sampleSnapshot "c1" 0).lookup "risk_score" =
      some (.num 0) := by
  refine ⟨rfl, le_of_eq
    (show aggViewingHours sampleSnapshot "c1" 0 = 0 from by decide).symm, ?_⟩
  have h := (behavioral_scores_spec sampleSnapshot "c1" 0 sampleCustomer
    rfl).2.1
  rw [h]
  rw [show aggUnresolvedCalls sampleSnapshot "c1" 0 = 0 from by decide]
  rw [show aggPaymentFailures sampleSnapshot "c1" 0 = 0 from by decide]
  rw [show aggDaysOverdue sampleSnapshot "c1" 0 = 0 from by decide]
  simp only [Option.some.injEq, FeatureValue.num.injEq]
  rw [min_def, min_def, min_def]
  norm_num

/-! ## Event ingestion (ingestion/stream_processor.py, kafka_consumer.py)

The consumer is created with `enable_auto_commit=True` and its loop catches
every processing exception and continues, so an inbound message is
acknowledged whether or not its processing succeeded. -/

/-- A field value of an inbound bus message. A timestamp string that
`datetime.fromisoformat` accepts is modelled as `time` carrying its epoch
seconds; any other payload in the timestamp position is unparsable. -/
inductive MsgVal
  | str (v : String)
  | time (t : ℤ)
  | int (v : ℤ)
  | num (v : ℚ)
  deriving DecidableEq

/-- An inbound message: a JSON object, as an association list. -/
abbrev Msg := List (String × MsgVal)

/-- The exception a persist handler can raise: `KeyError` from a missing
`event[...]` subscription, `ValueError` from an unparsable timestamp. -/
inductive PyError
  | keyError (field : String)
  | valueError (message : String)
  deriving DecidableEq

/-- `event['k']` for a string-typed required field: KeyError when missing;
a payload of the wrong shape for a string column is treated as unparsable. -/
def reqStr (m : Msg) (k : String) : Except PyError String :=
  match m.lookup k with
  | none => .error (.keyError k)
  | some (.str v) => .ok v
  | some _ => .error (.valueError k)

/-- `datetime.fromisoformat(event['timestamp'].replace('Z', '+00:00'))`:
KeyError when the field is missing, ValueError when it does not parse. -/
def reqTimestamp (m : Msg) : Except PyError ℤ :=
  match m.lookup "timestamp" with
  | none => .error (.keyError "timestamp")
  | some (.time t) => .ok t
  | some _ => .error (.valueError "invalid isoformat string")

/-- `event.get('k')` read into a nullable string column. -/
def optStr (m : Msg) (k : String) : Option String :=
  match m.lookup k with
  | some (.str v) => some v
  | _ => none

/-- `event.get('k')` read into a nullable integer column. -/
def optInt (m : Msg) (k : String) : Option ℤ :=
  match m.lookup k with
  | some (.int v) => some v
  | _ => none

/-- `event.get('k')` read into a nullable float column. -/
def optNum (m : Msg) (k : String) : Option ℚ :=
  match m.lookup k with
  | some (.num v) => some v
  | some (.int v) => some (v : ℚ)
  | _ => none

/-- `StreamProcessor._process_customer_service_event`: build the row in the
source's keyword order (a missing required field or unparsable timestamp
raises, the insert is rolled back and the exception re-raised — modelled by
explicit error propagation) and append it to the table. Columns not read by
any embedded computation are not carried. -/
def processCustomerServiceEvent (db : Snapshot) (event : Msg) :
    Except PyError Snapshot :=
  match reqStr event "customer_id" with
  | .error e => .error e
  | .ok cid =>
    match reqTimestamp event with
    | .error e => .error e
    | .ok ts =>
      .ok { db with serviceInteractions := db.serviceInteractions ++
        [{ customer_id := cid, timestamp := ts,
           channel := optStr event "channel",
           duration_seconds := optInt event "duration_seconds",
           resolution_status := optStr event "resolution_status",
           sentiment_score := optNum event "sentiment_score" }] }

/-- `StreamProcessor._process_stb_telemetry`. -/
def processStbTelemetry (db : Snapshot) (event : Msg) :
    Except PyError Snapshot :=
  match reqStr event "device_id" with
  | .error e => .error e
  | .ok dev =>
    match reqStr event "customer_id" with
    | .error e => .error e
    | .ok cid =>
      match reqTimestamp event with
      | .error e => .error e
      | .ok ts =>
        .ok { db with stbEvents := db.stbEvents ++
          [{ device_id := dev, customer_id := cid, timestamp := ts,
             event_type := optStr event "event_type",
             viewing_duration_seconds := optInt event "viewing_duration_seconds",
             error_code := optStr event "error_code",
             buffer_events := (optInt event "buffer_events").getD 0,
             network_quality := optNum event "network_quality" }] }

/-- `StreamProcessor._process_web_analytics`: note that `customer_id` is
read with `.get` — a web event without one is built and persisted with a
NULL customer id. -/
def processWebAnalytics (db : Snapshot) (event : Msg) :
    Except PyError Snapshot :=
  match reqStr event "session_id" with
  | .error e => .error e
  | .ok sid =>
    match reqTimestamp event with
    | .error e => .error e
    | .ok ts =>
      .ok { db with webEvents := db.webEvents ++
        [{ customer_id := optStr event "customer_id",
           session_id := sid, timestamp := ts,
           event_name := optStr event "event_name",
           engagement_time_msec := optInt event "engagement_time_msec" }] }

/-- `StreamProcessor._process_billing_event`. -/
def processBillingEvent (db : Snapshot) (event : Msg) :
    Except PyError Snapshot :=
  match reqStr event "event_type" with
  | .error e => .error e
  | .ok et =>
    match reqStr event "customer_id" with
    | .error e => .error e
    | .ok cid =>
      match reqTimestamp event with
      | .error e => .error e
      | .ok ts =>
        match reqStr event "transaction_id" with
        | .error e => .error e
        | .ok tx =>
          .ok { db with billingEvents := db.billingEvents ++
            [{ event_type := et, customer_id := cid, timestamp := ts,
               transaction_id := tx,
               amount := optNum event "amount",
               account_balance := optNum event "account_balance",
               days_overdue := some ((optInt event "days_overdue").getD 0) }] }

/-- Whether the first list of characters starts the second. -/
def startsList : List Char → List Char → Bool
  | [], _ => true
  | _ :: _, [] => false
  | c :: cs, d :: ds => c == d && startsList cs ds

/-- Whether the pattern occurs inside the haystack. -/
def containsSub (pat : List Char) : List Char → Bool
  | [] => startsList pat []
  | c :: rest => startsList pat (c :: rest) || containsSub pat rest

/-- Python's `'pat' in topic` substring test. -/
def strContains (hay pat : String) : Bool :=
  containsSub pat.data hay.data

/-- The Redis feature cache: customer id to cached feature dict. -/
abbrev Cache := List (String × Features)

/-- The durable store together with the online feature cache. -/
structure IngestState where
  db : Snapshot
  cache : Cache
  deriving DecidableEq

/-- `setex`: overwrite the cache entry for a key. -/
def cacheSet (cache : Cache) (cid : String) (fs : Features) : Cache :=
  (cid, fs) :: cache.filter fun p => p.1 != cid

/-- `FeatureStore.update_customer_features`: recompute from the store and
overwrite the cache entry. -/
def updateCustomerFeatures (st : IngestState) (cid : String) (now : ℤ) :
    IngestState :=
  ⟨st.db, cacheSet st.cache cid (computeFeatures st.db cid now)⟩

/-- Python string truthiness of an optional string: None and "" are falsy. -/
def pyTruthy (a : Option String) : Option String :=
  match a with
  | some "" => none
  | x => x

/-- The body of `StreamProcessor.process_event` inside its try block:
dispatch on a substring of the topic (unknown topics only log), then
refresh the feature cache for `message.get('customer_id') or key` when that
is truthy. An error from a handler propagates out of the block. -/
def processEventTry (st : IngestState) (topic : String) (message : Msg)
    (key : Option String) (now : ℤ) : Except PyError IngestState :=
  match (if strContains topic "customer-service-events" then
           processCustomerServiceEvent st.db message
         else if strContains topic "stb-telemetry-events" then
           processStbTelemetry st.db message
         else if strContains topic "web-analytics-events" then
           processWebAnalytics st.db message
         else if strContains topic "billing-events" then
           processBillingEvent st.db message
         else .ok st.db) with
  | .error e => .error e
  | .ok db' =>
    match pyTruthy (match pyTruthy (optStr message "customer_id") with
                    | some v => some v
                    | none => key) with
    | some cid => .ok (updateCustomerFeatures ⟨db', st.cache⟩ cid now)
    | none => .ok ⟨db', st.cache⟩

/-- `StreamProcessor.process_event`: the whole body runs under
`except Exception`, which logs and swallows every error, so the call always
returns normally — with auto-commit enabled the message is acknowledged
either way, and on failure the state is unchanged. -/
def processEvent (st : IngestState) (topic : String) (message : Msg)
    (key : Option String) (now : ℤ) : IngestState :=
  match processEventTry st topic message key now with
  | .ok st' => st'
  | .error _ => st

/-- A customer-service event with a missing customer id or a
missing/unparsable timestamp raises before anything is inserted. -/
theorem processCustomerServiceEvent_error (db : Snapshot) (message : Msg)
    (hbad : message.lookup "customer_id" = none ∨
      ∃ e, reqTimestamp message = Except.error e) :
    ∃ e, processCustomerServiceEvent db message = .error e := by
  unfold processCustomerServiceEvent
  rcases hbad with hcid | ⟨e, hts⟩
  · rw [show reqStr message "customer_id" =
        Except.error (PyError.keyError "customer_id") from by
      unfold reqStr; rw [hcid]]
    exact ⟨_, rfl⟩
  · cases hs : reqStr message "customer_id" with
    | error e' => exact ⟨e', rfl⟩
    | ok cid => rw [hts]; exact ⟨e, rfl⟩

/-- An STB telemetry event with a missing customer id or a
missing/unparsable timestamp raises before anything is inserted. -/
theorem processStbTelemetry_error (db : Snapshot) (message : Msg)
    (hbad : message.lookup "customer_id" = none ∨
      ∃ e, reqTimestamp message = Except.error e) :
    ∃ e, processStbTelemetry db message = .error e := by
  unfold processStbTelemetry
  cases hdev : reqStr message "device_id" with
  | error e' => exact ⟨e', rfl⟩
  | ok dev =>
    dsimp only
    rcases hbad with hcid | ⟨e, hts⟩
    · rw [show reqStr message "customer_id" =
          Except.error (PyError.keyError "customer_id") from by
        unfold reqStr; rw [hcid]]
      exact ⟨_, rfl⟩
    · cases hs : reqStr message "customer_id" with
      | error e' => exact ⟨e', rfl⟩
      | ok cid => rw [hts]; exact ⟨e, rfl⟩

/-- A billing event with a missing customer id or a missing/unparsable
timestamp raises before anything is inserted. -/
theorem processBillingEvent_error (db : Snapshot) (message : Msg)
    (hbad : message.lookup "customer_id" = none ∨
      ∃ e, reqTimestamp message = Except.error e) :
    ∃ e, processBillingEvent db message = .error e := by
  unfold processBillingEvent
  cases het : reqStr message "event_type" with
  | error e' => exact ⟨e', rfl⟩
  | ok et =>
    dsimp only
    rcases hbad with hcid | ⟨e, hts⟩
    · rw [show reqStr message "customer_id" =
          Except.error (PyError.keyError "customer_id") from by
        unfold reqStr; rw [hcid]]
      exact ⟨_, rfl⟩
    · cases hs : reqStr message "customer_id" with
      | error e' => exact ⟨e', rfl⟩
      | ok cid => rw [hts]; exact ⟨e, rfl⟩

/-- Claim C9 (amended): for the customer-service, stb-telemetry and billing
channels, an event with a missing customer id or a missing/unparsable
timestamp makes the persist handler raise (a KeyError or ValueError — no
ValidationError type exists), nothing of any kind is persisted and the
cache is untouched (all-or-nothing holds); but `process_event` catches and
logs the exception and returns normally, and the auto-committing consumer
acknowledges the message, so the bus does not redeliver it. (A
web-analytics event missing its customer id is persisted with a NULL
customer id — see the counterexample.) -/
theorem ingestion_invalid_event_behavior (st : IngestState) (message : Msg)
    (key : Option String) (now : ℤ)
    (hbad : message.lookup "customer_id" = none ∨
      ∃ e, reqTimestamp message = Except.error e) :
    ((∃ e, processEventTry st "customer-service-events" message key now =
        .error e) ∧
      processEvent st "customer-service-events" message key now = st) ∧
    ((∃ e, processEventTry st "stb-telemetry-events" message key now =
        .error e) ∧
      processEvent st "stb-telemetry-events" message key now = st) ∧
    ((∃ e, processEventTry st "billing-events" message key now = .error e) ∧
      processEvent st "billing-events" message key now = st) := by
  obtain ⟨e₁, he₁⟩ := processCustomerServiceEvent_error st.db message hbad
  obtain ⟨e₂, he₂⟩ := processStbTelemetry_error st.db message hbad
  obtain ⟨e₃, he₃⟩ := processBillingEvent_error st.db message hbad
  have t1 : strContains "customer-service-events" "customer-service-events" =
    true := by decide
  have t2 : strContains "stb-telemetry-events" "customer-service-events" =
    false := by decide
  have t3 : strContains "stb-telemetry-events" "stb-telemetry-events" =
    true := by decide
  have t4 : strContains "billing-events" "customer-service-events" =
    false := by decide
  have t5 : strContains "billing-events" "stb-telemetry-events" =
    false := by decide
  have t6 : strContains "billing-events" "web-analytics-events" =
    false := by decide
  have t7 : strContains "billing-events" "billing-events" = true := by decide
  refine ⟨⟨⟨e₁, ?_⟩, ?_⟩, ⟨⟨e₂, ?_⟩, ?_⟩, ⟨⟨e₃, ?_⟩, ?_⟩⟩ <;>
    simp [processEventTry, processEvent, t1, t2, t3, t4, t5, t6, t7,
      he₁, he₂, he₃]

/-- Witness for `ingestion_invalid_event_behavior`: a customer-service
message carrying only a parseable timestamp (no customer_id). -/
theorem ingestion_invalid_event_behavior_witness :
    (List.lookup "customer_id"
        ([("timestamp", .time 0)] : Msg) = none ∨
      ∃ e, reqTimestamp [("timestamp", .time 0)] = Except.error e) ∧
    processEvent ⟨⟨[], [], [], [], []⟩, []⟩ "customer-service-events"
        [("timestamp", .time 0)] none 0 =
      ⟨⟨[], [], [], [], []⟩, []⟩ :=
  ⟨Or.inl rfl,
    (ingestion_invalid_event_behavior ⟨⟨[], [], [], [], []⟩, []⟩
      [("timestamp", .time 0)] none 0 (Or.inl rfl)).1.2⟩

/-- Claim C9 counterexample: a web-analytics event with no customer_id at
all (a required field per the ingestion contract) is persisted — with a
NULL customer id — rather than rejected, and `process_event` completes
normally so the message is acknowledged. -/
theorem webAnalytics_missing_customer_persisted :
    processEvent ⟨⟨[], [], [], [], []⟩, []⟩ "web-analytics-events"
        [("session_id", .str "s1"), ("timestamp", .time 0),
         ("event_name", .str "page_view")] none 0 =
      ⟨⟨[], [], [],
        [{ customer_id := none, session_id := "s1", timestamp := 0,
           event_name := some "page_view", engagement_time_msec := none }],
        []⟩, []⟩ ∧
    [({ customer_id := none, session_id := "s1", timestamp := 0,
        event_name := some "page_view", engagement_time_msec := none } :
      WebAnalyticsEvent)].length = 1 := by
  constructor
  · decide
  · decide

/-! ## Prediction serving (ml/model_loader.py, api/main.py) -/

/-- `ModelLoader.predict`: the pandas preprocessing and the opaque sklearn
scorer are abstracted as a function from the feature dict to the churn
probability (the spec treats the trained scorer as an external opaque
function); the risk level is classified from the configured thresholds
exactly as the source's if/elif chain does. -/
def modelPredict (t : RiskThresholds) (scorer : Features → ℚ)
    (features : Features) : ℚ × String :=
  (scorer features, classifyRisk t (scorer features))

/-- `FeatureStore.get_customer_features` with `use_cache=True`: return the
cached dict when present (a cached empty dict is the non-empty JSON string
"{}" and hence truthy, so it is returned as-is), else compute, cache with
TTL and return. -/
def getCustomerFeatures (db : Snapshot) (cache : Cache) (cid : String)
    (now : ℤ) : Features × Cache :=
  match cache.lookup cid with
  | some cached => (cached, cache)
  | none =>
    let features := computeFeatures db cid now
    (features, cacheSet cache cid features)

/-- `FeatureStore.get_batch_features`: the dict comprehension over the
requested ids. It yields an entry for every requested id — an id unknown to
the store maps to the empty feature dict, it is not absent. -/
def getBatchFeatures (db : Snapshot) (cache : Cache)
    (customer_ids : List String) (now : ℤ) :
    List (String × Features) × Cache :=
  match customer_ids with
  | [] => ([], cache)
  | cid :: rest =>
    let r := getCustomerFeatures db cache cid now
    let rs := getBatchFeatures db r.2 rest now
    ((cid, r.1) :: rs.1, rs.2)

/-- One entry of `_extract_risk_factors`. -/
structure RiskFactor where
  factor : String
  value : ℚ
  impact : String
  deriving DecidableEq

/-- `_extract_risk_factors` (api/main.py): threshold checks over the
feature dict; the result carries the first five factors and the count. -/
def extractRiskFactors (features : Features) (_churn_probability : ℚ) :
    List RiskFactor × ℕ :=
  let l1 := if getNum features "payment_failures_90d" 0 > 0 then
      [⟨"payment_failures", getNum features "payment_failures_90d" 0,
        "high"⟩]
    else []
  let l2 := if getNum features "days_overdue" 0 > 0 then
      [⟨"days_overdue", getNum features "days_overdue" 0, "high"⟩]
    else []
  let l3 := if getNum features "unresolved_calls_30d" 0 > 2 then
      [⟨"unresolved_service_calls", getNum features "unresolved_calls_30d" 0,
        "medium"⟩]
    else []
  let l4 := if getNum features "avg_sentiment_30d" 0 < -0.3 then
      [⟨"negative_sentiment", getNum features "avg_sentiment_30d" 0,
        "medium"⟩]
    else []
  let risk_factors := l1 ++ l2 ++ l3 ++ l4
  (risk_factors.take 5, risk_factors.length)

/-- A `/predict/batch` response entry (the prediction timestamp, a wall
clock read, is not carried). -/
structure ChurnPredictionResponse where
  customer_id : String
  churn_probability : ℚ
  risk_level : String
  model_version : String
  top_risk_factors : List RiskFactor × ℕ
  recommended_actions : List ActionRec
  deriving DecidableEq

/-- `predict_batch` (api/main.py): fetch the batch feature dicts, then for
each requested id `continue` when it is absent from the dict, otherwise
predict, extract risk factors, recommend actions and emit a response
entry. -/
def predictBatch (db : Snapshot) (cache : Cache) (t : RiskThresholds)
    (scorer : Features → ℚ) (customer_ids : List String) (now : ℤ) :
    List ChurnPredictionResponse :=
  let features_dict := (getBatchFeatures db cache customer_ids now).1
  customer_ids.filterMap fun cid =>
    match features_dict.lookup cid with
    | none => none
    | some features =>
      let proba := (modelPredict t scorer features).1
      let level := (modelPredict t scorer features).2
      some { customer_id := cid, churn_probability := proba,
             risk_level := level, model_version := "1.0.0",
             top_risk_factors := extractRiskFactors features proba,
             recommended_actions := recommendActions db cid proba level }

/-- The batch feature fetch returns an entry for every requested id, so the
skip branch of `predict_batch` can never fire. -/
theorem getBatchFeatures_complete (db : Snapshot) (now : ℤ) :
    ∀ (cids : List String) (cache : Cache) (cid : String), cid ∈ cids →
      ∃ f, ((getBatchFeatures db cache cids now).1).lookup cid = some f := by
  intro cids
  induction cids with
  | nil => intro cache cid h; simp at h
  | cons c rest ih =>
    intro cache cid h
    unfold getBatchFeatures
    by_cases hc : (cid == c) = true
    · exact ⟨(getCustomerFeatures db cache c now).1,
        by simp [List.lookup, hc]⟩
    · rcases List.mem_cons.mp h with he | hm
      · exact absurd (by simp [he]) hc
      · obtain ⟨f, hf⟩ :=
          ih (getCustomerFeatures db cache c now).2 cid hm
        exact ⟨f, by simp [List.lookup, hc, hf]⟩

/-- Claim C10, evaluated at the failing input: a batch request for the
single id "CUST_X" against an empty store. The customer has no resolvable
features — the batch feature dict maps it to the empty dict — yet the
response contains an entry for it instead of skipping it. -/
theorem predictBatch_unknown_not_skipped :
    ((getBatchFeatures ⟨[], [], [], [], []⟩ [] ["CUST_X"] 0).1).lookup
        "CUST_X" = some [] ∧
    (predictBatch ⟨[], [], [], [], []⟩ [] ⟨8/10, 6/10, 3/10⟩ (fun _ => 1/2)
        ["CUST_X"] 0).map (fun r => r.customer_id) = ["CUST_X"] := by
  constructor
  · decide
  · decide

end ChurnSpec
